import Mathlib

/-
Verification development for the waterproject harmonization and ingestion
pipeline.  The Python sources (src/ewai/db/db_util.py, src/ewai/unit_convertor.py,
src/ewai/harmonize.py, src/server/app.py) are shallowly embedded below:

  * pandas Series / DataFrames become Lean lists of records;
  * SQL tables become lists of row structures, with the ON CONFLICT merge
    logic of each upsert expressed as an explicit merge function;
  * Postgres composite UNIQUE constraints are modelled with their actual
    NULL semantics: two rows conflict only when every key column is
    non-NULL on both sides and equal (NULLs are distinct in a standard
    Postgres unique index, as in the repository's DDL);
  * double-precision floats are modelled as exact rationals (no claim in
    scope depends on float rounding);
  * UUID / text identifiers are modelled as String, SERIAL ids as Nat,
    timestamps as an abstract Nat instant (only equality matters here).
-/

namespace WaterProject

/-! ### Generic string helpers

`trimStr`, `lowerStr`, `normCol` and friends model the Python snippets
`s.strip()`, `s.lower()` and `re.sub(r"\s+", " ", s).strip()` used by
db_util.py and harmonize.py.  Whitespace is `Char.isWhitespace`
(space/tab/newline/carriage return), matching the ASCII part of Python's
`\s`; claims in scope only involve ASCII labels. -/

def trimStr (s : String) : String :=
  String.mk (((s.toList.dropWhile Char.isWhitespace).reverse.dropWhile Char.isWhitespace).reverse)

def lowerStr (s : String) : String :=
  String.mk (s.toList.map Char.toLower)

/-- Split a character list into maximal whitespace-free words. -/
def wordsAux : List Char → List Char → List (List Char)
  | [], acc => if acc.isEmpty then [] else [acc.reverse]
  | c :: cs, acc =>
    if c.isWhitespace then
      if acc.isEmpty then wordsAux cs [] else acc.reverse :: wordsAux cs []
    else wordsAux cs (c :: acc)

/-- harmonize.py `_norm_col`: collapse whitespace runs to one space and strip. -/
def normCol (s : String) : String :=
  String.intercalate " " ((wordsAux s.toList []).map String.mk)

/-- ASCII punctuation, exactly Python's `string.punctuation`
(codepoints 33-47, 58-64, 91-96, 123-126). -/
def isPunct (c : Char) : Bool :=
  let n := c.toNat
  (33 ≤ n && n ≤ 47) || (58 ≤ n && n ≤ 64) || (91 ≤ n && n ≤ 96) || (123 ≤ n && n ≤ 126)

/-- SQL COALESCE(a, b): the first argument when present, otherwise the second. -/
def coalesce {α : Type} : Option α → Option α → Option α
  | some v, _ => some v
  | none, b => b

namespace DbUtil

/-! ### Canonical vocabulary (db_util.py)

Association lists transcribing `STANDARD_UNITS`, `CONTROLLED_UNIT_VOCAB`,
`CONTROLLED_META_VOCAB`, `QUALITY_FLAGS`, `PLAUSIBLE_RANGE`,
`PARAM_CATEGORY_MAP` and `PRESET_SAMPLING_LOCATIONS`. -/

def STANDARD_UNITS : List (String × String) := [
  ("temperature", "C"),
  ("ph", "unitless"),
  ("dissolved_oxygen", "mg/L"),
  ("turbidity", "NTU"),
  ("conductivity", "µS/cm"),
  ("chlorophyll_a", "µg/L"),
  ("salinity", "PSU"),
  ("secchi_depth", "m"),
  ("redox", "mV"),
  ("total_phosphorus", "mg/L"),
  ("total_nitrogen", "mg/L"),
  ("organic_nitrogen", "mg/L"),
  ("nitrate", "mg/L"),
  ("nitrite", "mg/L"),
  ("ammonium", "mg/L"),
  ("phosphate", "mg/L"),
  ("sulfate", "mg/L"),
  ("chloride", "mg/L"),
  ("fluoride", "mg/L"),
  ("potassium", "mg/L"),
  ("carbon_dioxide", "mg/L"),
  ("uv_absorbance", "absorbance"),
  ("suva", "L/mg·m"),
  ("toc", "mg/L"),
  ("color_real", "PtCo"),
  ("reservoir_level", "m"),
  ("photic_zone_depth", "m"),
  ("pheopigments", "µg/L"),
  ("total_eukaryotic_algae", "cells/mL"),
  ("total_cyanobacteria", "cells/mL"),
  ("diatoms", "cells/mL"),
  ("ceratium", "cells/mL"),
  ("peridinium", "cells/mL"),
  ("dynobryon", "cells/mL"),
  ("cryptomonas", "cells/mL"),
  ("eudorina_pandorina", "cells/mL"),
  ("staurastrum", "cells/mL"),
  ("woronochinia", "cells/mL"),
  ("dolichospermum", "cells/mL"),
  ("aphanizomenon", "cells/mL"),
  ("e_coli", "CFU/100mL"),
  ("microcystins", "µg/L"),
  ("saxitoxina", "µg/L")]

def CONTROLLED_UNIT_VOCAB : List (String × List String) := [
  ("temperature", ["C", "K", "F"]),
  ("ph", ["unitless"]),
  ("dissolved_oxygen", ["mg/L", "ppm"]),
  ("turbidity", ["NTU", "FNU"]),
  ("conductivity", ["µS/cm", "mS/cm"]),
  ("chlorophyll_a", ["µg/L"]),
  ("salinity", ["PSU"]),
  ("secchi_depth", ["m"]),
  ("redox", ["mV"]),
  ("total_phosphorus", ["mg/L", "µg/L"]),
  ("total_nitrogen", ["mg/L"]),
  ("organic_nitrogen", ["mg/L"]),
  ("nitrate", ["mg/L", "µg/L"]),
  ("nitrite", ["mg/L", "µg/L"]),
  ("ammonium", ["mg/L", "µg/L"]),
  ("phosphate", ["mg/L", "µg/L"]),
  ("sulfate", ["mg/L"]),
  ("chloride", ["mg/L"]),
  ("fluoride", ["mg/L"]),
  ("potassium", ["mg/L"]),
  ("carbon_dioxide", ["mg/L", "ppm"]),
  ("uv_absorbance", ["absorbance"]),
  ("suva", ["L/mg·m"]),
  ("toc", ["mg/L"]),
  ("color_real", ["PtCo"]),
  ("reservoir_level", ["m"]),
  ("photic_zone_depth", ["m"]),
  ("pheopigments", ["µg/L"]),
  ("total_eukaryotic_algae", ["cells/mL"]),
  ("total_cyanobacteria", ["cells/mL"]),
  ("diatoms", ["cells/mL"]),
  ("ceratium", ["cells/mL"]),
  ("peridinium", ["cells/mL"]),
  ("dynobryon", ["cells/mL"]),
  ("cryptomonas", ["cells/mL"]),
  ("eudorina_pandorina", ["cells/mL"]),
  ("staurastrum", ["cells/mL"]),
  ("woronochinia", ["cells/mL"]),
  ("dolichospermum", ["cells/mL"]),
  ("aphanizomenon", ["cells/mL"]),
  ("e_coli", ["CFU/100mL"]),
  ("microcystins", ["µg/L"]),
  ("saxitoxina", ["µg/L"])]

def CONTROLLED_META_VOCAB : List String := [
  "timestamp", "datetime", "date", "time",
  "sampling_point", "site", "station", "site_id",
  "latitude", "longitude", "lat", "lon",
  "depth", "sample_id", "operator_id",
  "remarks", "notes", "file_name"]

def QUALITY_FLAGS : List (String × Nat) := [
  ("ok", 0),
  ("out_of_range", 1),
  ("missing", 2),
  ("outlier", 3)]

def PLAUSIBLE_RANGE : List (String × (ℚ × ℚ)) := [
  ("temperature", (-5, 50)),
  ("ph", (0, 14)),
  ("dissolved_oxygen", (0, 25)),
  ("conductivity", (0, 50000)),
  ("chlorophyll_a", (0, 1000)),
  ("nitrate", (0, 50)),
  ("turbidity", (0, 20000))]

def PARAM_CATEGORY_MAP : List (String × String) := [
  ("temperature", "physical"),
  ("turbidity", "physical"),
  ("conductivity", "physical"),
  ("secchi_depth", "physical"),
  ("photic_zone_depth", "physical"),
  ("reservoir_level", "physical"),
  ("color_real", "physical"),
  ("ph", "chemical"),
  ("nitrate", "chemical"),
  ("nitrite", "chemical"),
  ("chloride", "chemical"),
  ("sulfate", "chemical"),
  ("potassium", "chemical"),
  ("ammonium", "chemical"),
  ("phosphate", "chemical"),
  ("suva", "chemical"),
  ("redox", "chemical"),
  ("dissolved_oxygen", "chemical"),
  ("uv_absorbance", "chemical"),
  ("organic_nitrogen", "chemical"),
  ("total_phosphorus", "chemical"),
  ("toc", "chemical"),
  ("total_nitrogen", "chemical"),
  ("fluoride", "chemical"),
  ("carbon_dioxide", "chemical"),
  ("chlorophyll_a", "bio"),
  ("total_cyanobacteria", "bio"),
  ("total_eukaryotic_algae", "bio"),
  ("cryptomonas", "bio"),
  ("diatoms", "bio"),
  ("ceratium", "bio"),
  ("peridinium", "bio"),
  ("dynobryon", "bio"),
  ("aphanizomenon", "bio"),
  ("e_coli", "bio"),
  ("saxitoxina", "bio"),
  ("microcystins", "bio"),
  ("pheopigments", "bio"),
  ("woronochinia", "bio"),
  ("staurastrum", "bio"),
  ("dolichospermum", "bio"),
  ("eudorina_pandorina", "bio")]

/-- db_util.py `get_param_category`. -/
def get_param_category (code : String) : String :=
  ((PARAM_CATEGORY_MAP.lookup (lowerStr (trimStr code))).getD "unknown")

/-- db_util.py `_norm_str`: None stays None, otherwise strip; empty becomes None. -/
def norm_str : Option String → Option String
  | none => none
  | some x => let s := trimStr x; if s = "" then none else some s

/-- db_util.py `_norm_point_key`: de-accent (identity on the ASCII labels in
scope), lowercase, strip, collapse whitespace, drop ASCII punctuation;
empty result becomes None. -/
def norm_point_key : Option String → Option String
  | none => none
  | some s =>
    let s1 := trimStr (lowerStr s)
    let s2 := String.intercalate " " ((wordsAux s1.toList []).map String.mk)
    let s3 := String.mk (s2.toList.filter (fun c => !(isPunct c)))
    if s3 = "" then none else some s3

/-- One PRESET_SAMPLING_LOCATIONS entry: the key is the normalized label,
exactly as the Python dict literal applies `_norm_point_key` to each key. -/
def presetEntry (label : String) (lat lon : ℚ) : Option String × (ℚ × ℚ) :=
  (norm_point_key (some label), (lat, lon))

def PRESET_SAMPLING_LOCATIONS : List (Option String × (ℚ × ℚ)) := [
  presetEntry "Descarga Bombeo Pantanillo" (6097617/1000000) (-75493633/1000000),
  presetEntry "Entrada Palmas-Esp.Santo" (61115/10000) (-75497717/1000000),
  presetEntry "Entrada Potreros" (61043/10000) (-75500833/1000000),
  presetEntry "Presa" (6098556/1000000) (-75490806/1000000),
  presetEntry "Torre 1 Superficial" (6106722/1000000) (-75498/1000),
  presetEntry "Torre 2 Media" (6106722/1000000) (-75498/1000),
  presetEntry "Torre 3 Profunda" (6106722/1000000) (-75498/1000)]

def presetLookup (k : Option String) : Option (ℚ × ℚ) :=
  (PRESET_SAMPLING_LOCATIONS.find? (fun e => e.1 = k)).map Prod.snd

/-! ### Quality flag engine (db_util.py `_compute_quality_flags_df`) -/

inductive QFlag : Type where
  | ok | out_of_range | missing | outlier
deriving DecidableEq, Repr

def QFlag.code : QFlag → String
  | .ok => "ok"
  | .out_of_range => "out_of_range"
  | .missing => "missing"
  | .outlier => "outlier"

/-- One row of the long/tidy dataframe produced by `melt_harmonized`:
ts, sampling_point, parameter_code, unit, value, source_column. -/
structure LongRec : Type where
  ts : Option Nat
  sampling_point : Option String
  parameter_code : String
  unit : Option String
  value : Option ℚ
  source_column : Option String
deriving DecidableEq, Repr

/-- Lookup of a parameter's plausible range; rows whose parameter has no
registered range are never out_of_range, matching the loop over
`PLAUSIBLE_RANGE.items()`. -/
def outOfRange (pcode : String) (v : ℚ) : Bool :=
  match PLAUSIBLE_RANGE.lookup pcode with
  | some (lo, hi) => v < lo || hi < v
  | none => false

/-- Insertion sort on rationals (ascending), used to evaluate quantiles the
way `Series.quantile` does over the sorted sample. -/
def insertSortedQ (x : ℚ) : List ℚ → List ℚ
  | [] => [x]
  | y :: ys => if x ≤ y then x :: y :: ys else y :: insertSortedQ x ys

def sortQ : List ℚ → List ℚ
  | [] => []
  | x :: xs => insertSortedQ x (sortQ xs)

/-- Floor of a nonnegative rational as a natural number. -/
def ratFloorNat (q : ℚ) : ℕ := q.num.toNat / q.den

/-- pandas `Series.quantile(q)` with the default linear interpolation over the
sorted sample s: h = q*(n-1), result = s[⌊h⌋] + (h-⌊h⌋)*(s[⌊h⌋+1]-s[⌊h⌋]). -/
def quantileLin (s : List ℚ) (q : ℚ) : ℚ :=
  let n := s.length
  if n = 0 then 0
  else
    let h : ℚ := q * ((n : ℚ) - 1)
    let i : ℕ := ratFloorNat h
    let a := s.getD i 0
    let b := s.getD (min (i + 1) (n - 1)) 0
    a + (h - (i : ℚ)) * (b - a)

/-- The non-missing, non-out_of_range values of one parameter within the
batch: the rows the pandas code groups (`rem`) before scoring outliers. -/
def remainingVals (df : List LongRec) (pcode : String) : List ℚ :=
  df.filterMap (fun r =>
    match r.value with
    | none => none
    | some v =>
      if r.parameter_code = pcode && !(outOfRange r.parameter_code v) then some v else none)

/-- `v.quantile(0.25)` of one parameter group (`q1` in
`_compute_quality_flags_df`). -/
def groupQ1 (df : List LongRec) (pcode : String) : ℚ :=
  quantileLin (sortQ (remainingVals df pcode)) (1/4)

/-- `v.quantile(0.75)` of one parameter group (`q3`). -/
def groupQ3 (df : List LongRec) (pcode : String) : ℚ :=
  quantileLin (sortQ (remainingVals df pcode)) (3/4)

/-- `iqr = q3 - q1` of one parameter group. -/
def groupIQR (df : List LongRec) (pcode : String) : ℚ :=
  groupQ3 df pcode - groupQ1 df pcode

/-- db_util.py `_compute_quality_flags_df`, per record.  Priority:
missing > out_of_range > outlier > ok.  Outliers use the Tukey 3*IQR fence
over that parameter's remaining values within the same batch, skipped when
the group has fewer than 5 values or IQR is zero. -/
def computeFlag (df : List LongRec) (r : LongRec) : QFlag :=
  match r.value with
  | none => .missing
  | some v =>
    if outOfRange r.parameter_code v then .out_of_range
    else
      if (remainingVals df r.parameter_code).length < 5 then .ok
      else
        let q1 := groupQ1 df r.parameter_code
        let q3 := groupQ3 df r.parameter_code
        let iqr := groupIQR df r.parameter_code
        if iqr = 0 then .ok
        else if v < q1 - 3 * iqr || q3 + 3 * iqr < v then .outlier
        else .ok

/-- The Series of flags aligned with the long dataframe. -/
def computeQualityFlags (df : List LongRec) : List QFlag :=
  df.map (computeFlag df)

/-! ### Lazy parameter upsert (db_util.py `upsert_parameters_for_codes`) -/

/-- One row of public.parameters (parameter_id SERIAL, code UNIQUE). -/
structure ParamRow : Type where
  parameter_id : Nat
  code : String
  display_name : String
  standard_unit : String
  allowed_units : List String
  category : String
deriving DecidableEq, Repr

/-- The ON CONFLICT (code) DO UPDATE body of the parameters upsert: every
descriptor column is replaced by the incoming (EXCLUDED) values. -/
def paramOnConflict (old incoming : ParamRow) : ParamRow :=
  { old with
    display_name := incoming.display_name,
    standard_unit := incoming.standard_unit,
    allowed_units := incoming.allowed_units,
    category := incoming.category }

/-- Upsert one known parameter code into the table (`nextId` models the
SERIAL assignment for a fresh row). -/
def upsertParamRow (store : List ParamRow) (nextId : Nat) (incoming : ParamRow) : List ParamRow :=
  if store.any (fun e => e.code = incoming.code) then
    store.map (fun e => if e.code = incoming.code then paramOnConflict e incoming else e)
  else
    store ++ [{ incoming with parameter_id := nextId }]

/-- db_util.py `upsert_parameters_for_codes` restricted to one code: codes not
in STANDARD_UNITS are skipped and create no row (the model folds this over a
code list below; the Python set() dedup only affects repeat work, not the
resulting table). -/
def upsertParameterForCode (store : List ParamRow) (nextId : Nat) (rawCode : String) : List ParamRow :=
  let code := lowerStr (trimStr rawCode)
  match STANDARD_UNITS.lookup code with
  | none => store
  | some std_unit =>
    let allowed := (CONTROLLED_UNIT_VOCAB.lookup code).getD []
    upsertParamRow store nextId
      { parameter_id := 0, code := code, display_name := code,
        standard_unit := std_unit, allowed_units := allowed,
        category := get_param_category code }

def upsertParametersForCodes (store : List ParamRow) (nextId : Nat) (codes : List String) : List ParamRow :=
  codes.foldl (fun s c => upsertParameterForCode s nextId c) store

/-! ### Waterbody upsert (db_util.py `upsert_waterbody`) -/

structure WBRow : Type where
  waterbody_id : String
  client_id : String
  name : String
  wtype : String
  confidence : ℚ
  provenance : List String
deriving DecidableEq, Repr

def VALID_WB_TYPES : List String :=
  ["reservoir", "lake", "river", "lagoon", "wetland", "canal", "unknown"]

/-- The ON CONFLICT (client_id, name, type) DO UPDATE body:
confidence := GREATEST(old, incoming); provenance := the distinct union
ARRAY(SELECT DISTINCT UNNEST(old || incoming)).  SQL DISTINCT leaves the
order unspecified; the model dedups the concatenation, and membership is
the property the theorems use. -/
def wbOnConflict (old incoming : WBRow) : WBRow :=
  { old with
    confidence := max old.confidence incoming.confidence,
    provenance := (old.provenance ++ incoming.provenance).dedup }

/-- db_util.py `upsert_waterbody`: validates inputs (ValueError modelled as
none), normalizes name/type, coerces unrecognized types to "unknown", and
inserts-or-merges on (client_id, name, type).  Returns the id of the
affected row and the new table (`newId` models gen_random_uuid for a fresh
row). -/
def upsertWaterbody (store : List WBRow) (newId : String) (client_id : String)
    (name0 wtype0 : Option String) (confidence0 : Option ℚ) (provenance0 : List String) :
    Option (String × List WBRow) :=
  if client_id = "" then none
  else
    match norm_str name0, norm_str wtype0 with
    | some name, some wtype0n =>
      let confidence := confidence0.getD 0
      let wtype := if wtype0n ∈ VALID_WB_TYPES then wtype0n else "unknown"
      let incoming : WBRow :=
        { waterbody_id := newId, client_id := client_id, name := name,
          wtype := wtype, confidence := confidence, provenance := provenance0 }
      match store.find? (fun e => e.client_id = client_id && e.name = name && e.wtype = wtype) with
      | some old =>
        some (old.waterbody_id,
          store.map (fun e =>
            if e.client_id = client_id && e.name = name && e.wtype = wtype
            then wbOnConflict e incoming else e))
      | none => some (newId, store ++ [incoming])
    | _, _ => none

/-! ### Sampling-point upsert (db_util.py `upsert_sampling_points`) -/

structure SPRow : Type where
  sampling_point_id : String
  client_id : String
  waterbody_id : Option String
  code : String
  name : Option String
  lat : Option ℚ
  lon : Option ℚ
  depth_m : Option ℚ
deriving DecidableEq, Repr

/-- The ON CONFLICT (client_id, code) DO UPDATE body: every mergeable column
is COALESCE(EXCLUDED.col, existing.col) — the incoming value wins whenever
it is present, and the existing value survives only when the incoming one
is NULL. -/
def spOnConflict (old incoming : SPRow) : SPRow :=
  { old with
    waterbody_id := coalesce incoming.waterbody_id old.waterbody_id,
    name := coalesce incoming.name old.name,
    lat := coalesce incoming.lat old.lat,
    lon := coalesce incoming.lon old.lon,
    depth_m := coalesce incoming.depth_m old.depth_m }

/-- Insert-or-merge one sampling point row keyed on (client_id, code). -/
def upsertSPRow (store : List SPRow) (incoming : SPRow) : List SPRow :=
  if store.any (fun e => e.client_id = incoming.client_id && e.code = incoming.code) then
    store.map (fun e =>
      if e.client_id = incoming.client_id && e.code = incoming.code
      then spOnConflict e incoming else e)
  else store ++ [incoming]

/-- db_util.py `upsert_sampling_points`, per input row: normalize the code
(skip when empty), alias name := code, fill missing coordinates from the
preset table (never overriding explicitly supplied ones), then run the DB
upsert. -/
def upsertSamplingPointRow (store : List SPRow) (newId : String) (client_id : String)
    (waterbody_id : Option String) (rawCode : Option String)
    (lat0 lon0 depth0 : Option ℚ) : List SPRow :=
  match norm_str rawCode with
  | none => store
  | some code =>
    let name := code
    let latlon :=
      if lat0 = none || lon0 = none then
        match coalesce (presetLookup (norm_point_key (some code)))
                       (presetLookup (norm_point_key (some name))) with
        | some (plat, plon) => (coalesce lat0 (some plat), coalesce lon0 (some plon))
        | none => (lat0, lon0)
      else (lat0, lon0)
    upsertSPRow store
      { sampling_point_id := newId, client_id := client_id,
        waterbody_id := waterbody_id, code := code, name := some name,
        lat := latlon.1, lon := latlon.2, depth_m := depth0 }

/-! ### Dataset registration (db_util.py `register_dataset`) -/

structure DRow : Type where
  dataset_id : String
  client_id : String
  waterbody_id : Option String
  file_name : String
  sheet_name : Option String
  row_count : Nat
  col_count : Nat
  content_hash : Option String
  uploaded_at : Nat
deriving DecidableEq, Repr

/-- db_util.py `register_dataset`.  `newId` models gen_random_uuid and `now`
the clock.  With a content hash, ON CONFLICT (content_hash) DO UPDATE SET
uploaded_at = now() returns the existing row id; without one, a fresh row
is always inserted (a NULL content_hash never conflicts in the unique
index).  Empty client_id or file_name raises ValueError (modelled none). -/
def registerDataset (store : List DRow) (newId : String) (now : Nat)
    (client_id file_name : String) (sheet_name : Option String)
    (row_count col_count : Nat) (waterbody_id : Option String)
    (content_hash : Option String) : Option (String × List DRow) :=
  if client_id = "" || file_name = "" then none
  else
    match content_hash with
    | some h =>
      match store.find? (fun e => e.content_hash = some h) with
      | some old =>
        some (old.dataset_id,
          store.map (fun e => if e.content_hash = some h then { e with uploaded_at := now } else e))
      | none =>
        let row : DRow :=
          { dataset_id := newId, client_id := client_id,
            waterbody_id := waterbody_id, file_name := file_name,
            sheet_name := sheet_name, row_count := row_count,
            col_count := col_count, content_hash := some h, uploaded_at := now }
        some (newId, store ++ [row])
    | none =>
      let row : DRow :=
        { dataset_id := newId, client_id := client_id,
          waterbody_id := waterbody_id, file_name := file_name,
          sheet_name := sheet_name, row_count := row_count,
          col_count := col_count, content_hash := none, uploaded_at := now }
      some (newId, store ++ [row])

/-! ### Measurement insert (db_util.py `insert_measurements`)

The natural key is UNIQUE (dataset_id, sampling_point_id, parameter_id, ts,
source_column) with sampling_point_id, ts and source_column nullable.  In a
standard Postgres unique index NULLs are distinct, so ON CONFLICT fires
only when both rows carry non-NULL, equal values in every nullable key
column. -/

structure MRow : Type where
  dataset_id : String
  sampling_point_id : Option String
  parameter_id : Nat
  ts : Option Nat
  value : Option ℚ
  unit : Option String
  value_qualifier : Option String
  source_column : Option String
  quality_flag_id : Nat
deriving DecidableEq, Repr

/-- Equality of one nullable key column in the Postgres unique-index sense:
both sides non-NULL and equal. -/
def optKeyEq {α : Type} [DecidableEq α] : Option α → Option α → Bool
  | some a, some b => a = b
  | _, _ => false

/-- Whether an existing row blocks an incoming row under the measurements
natural-key constraint. -/
def keyConflict (e r : MRow) : Bool :=
  e.dataset_id = r.dataset_id && e.parameter_id = r.parameter_id &&
  optKeyEq e.sampling_point_id r.sampling_point_id &&
  optKeyEq e.ts r.ts &&
  optKeyEq e.source_column r.source_column

/-- The batched INSERT ... ON CONFLICT DO NOTHING: rows are attempted in
order, a conflicting row is silently absorbed, and the count of rows
actually inserted (len of RETURNING) is produced. -/
def insertLoop (store : List MRow) : List MRow → List MRow × Nat
  | [] => (store, 0)
  | r :: rest =>
    if store.any (fun e => keyConflict e r) then insertLoop store rest
    else
      let p := insertLoop (store ++ [r]) rest
      (p.1, p.2 + 1)

/-- The per-record payload construction inside `insert_measurements`: a
record whose parameter code has no row in public.parameters is dropped
with `continue` before the rows_in counter is bumped; the quality flag id
re-derives missing from the value and otherwise maps the computed flag
code through QUALITY_FLAGS (default ok). -/
def payloadOfRec (params : List ParamRow) (spMap : List (String × String))
    (dataset_id : String) (df : List LongRec) (r : LongRec) : Option MRow :=
  let pcode := lowerStr (trimStr r.parameter_code)
  match (params.find? (fun p => p.code = pcode)).map ParamRow.parameter_id with
  | none => none
  | some pid =>
    let sp_id :=
      match r.sampling_point with
      | some s => if trimStr s = "" then none else spMap.lookup (trimStr s)
      | none => none
    let qid :=
      match r.value with
      | none => (QUALITY_FLAGS.lookup "missing").getD 0
      | some _ =>
        ((QUALITY_FLAGS.lookup (computeFlag df r).code).getD
          ((QUALITY_FLAGS.lookup "ok").getD 0))
    some { dataset_id := dataset_id, sampling_point_id := sp_id,
           parameter_id := pid, ts := r.ts, value := r.value, unit := norm_str r.unit,
           value_qualifier := none, source_column := norm_str r.source_column,
           quality_flag_id := qid }

/-- The full payload: records with unknown parameter codes are filtered out,
so rows_in = payload length counts only the surviving records. -/
def payloadOf (params : List ParamRow) (spMap : List (String × String))
    (dataset_id : String) (df : List LongRec) : List MRow :=
  df.filterMap (payloadOfRec params spMap dataset_id df)

/-- db_util.py `insert_measurements`: returns
((rows_in, rows_inserted, rows_skipped), new measurements table).  An empty
long dataframe or an empty payload short-circuits to all-zero counts
without touching the store; otherwise the batch goes through the
conflict-absorbing insert and rows_skipped = rows_in - rows_inserted. -/
def insertMeasurements (params : List ParamRow) (spMap : List (String × String))
    (store : List MRow) (dataset_id : String) (df : List LongRec) :
    (Nat × Nat × Nat) × List MRow :=
  if df.isEmpty then ((0, 0, 0), store)
  else
    let payload := payloadOf params spMap dataset_id df
    let rows_in := payload.length
    if payload.isEmpty then ((0, 0, 0), store)
    else
      let p := insertLoop store payload
      ((rows_in, p.2, rows_in - p.2), p.1)

end DbUtil

namespace UnitConvertor

/-! ### Unit converter (unit_convertor.py)

A pandas cell is either a numeric value or a non-numeric cell
(`nonNum` covers both NaN and strings that `pd.to_numeric(·, "coerce")`
turns into NaN; numeric-looking text is considered already parsed). -/

inductive Cell : Type where
  | num (q : ℚ)
  | nonNum
deriving DecidableEq, Repr

/-- pd.to_numeric(s, errors="coerce") on one cell. -/
def coerceCell : Cell → Cell
  | .num q => .num q
  | .nonNum => .nonNum

/-- unit_convertor.py STANDARD_UNITS (the converter's own copy; it also
lists "chlorophyll", unlike the db_util table). -/
def STANDARD_UNITS : List (String × String) := [
  ("temperature", "C"),
  ("ph", "unitless"),
  ("dissolved_oxygen", "mg/L"),
  ("turbidity", "NTU"),
  ("conductivity", "µS/cm"),
  ("chlorophyll", "µg/L"),
  ("chlorophyll_a", "µg/L"),
  ("salinity", "PSU"),
  ("secchi_depth", "m"),
  ("redox", "mV"),
  ("total_phosphorus", "mg/L"),
  ("total_nitrogen", "mg/L"),
  ("organic_nitrogen", "mg/L"),
  ("nitrate", "mg/L"),
  ("nitrite", "mg/L"),
  ("ammonium", "mg/L"),
  ("phosphate", "mg/L"),
  ("sulfate", "mg/L"),
  ("chloride", "mg/L"),
  ("fluoride", "mg/L"),
  ("potassium", "mg/L"),
  ("carbon_dioxide", "mg/L"),
  ("uv_absorbance", "absorbance"),
  ("suva", "L/mg·m"),
  ("toc", "mg/L"),
  ("color_real", "PtCo"),
  ("reservoir_level", "m"),
  ("photic_zone_depth", "m"),
  ("pheopigments", "µg/L"),
  ("total_eukaryotic_algae", "cells/mL"),
  ("total_cyanobacteria", "cells/mL"),
  ("diatoms", "cells/mL"),
  ("ceratium", "cells/mL"),
  ("peridinium", "cells/mL"),
  ("dynobryon", "cells/mL"),
  ("cryptomonas", "cells/mL"),
  ("eudorina_pandorina", "cells/mL"),
  ("staurastrum", "cells/mL"),
  ("woronochinia", "cells/mL"),
  ("dolichospermum", "cells/mL"),
  ("aphanizomenon", "cells/mL"),
  ("e_coli", "CFU/100mL"),
  ("microcystins", "µg/L"),
  ("saxitoxina", "µg/L")]

/-- The registered conversion functions, as a closed enumeration so that the
CONVERTERS registry has decidable lookup. -/
inductive ConvFn : Type where
  | idc | fToC | kToC | msToUs | ugToMg | ppmToMg
deriving DecidableEq, Repr

/-- Pointwise arithmetic of each converter after numeric coercion
(`_id`, `_f_to_c`, `_k_to_c`, `_mscm_to_uscm`, `_ugl_to_mgl`,
`_ppm_to_mgl`). -/
def ConvFn.applyVal : ConvFn → ℚ → ℚ
  | .idc, q => q
  | .fToC, q => (q - 32) * (5 / 9)
  | .kToC, q => q - 27315 / 100
  | .msToUs, q => q * 1000
  | .ugToMg, q => q / 1000
  | .ppmToMg, q => q

def ConvFn.apply (fn : ConvFn) (s : List Cell) : List Cell :=
  s.map (fun c => match coerceCell c with
    | .num q => .num (fn.applyVal q)
    | .nonNum => .nonNum)

/-- unit_convertor.py CONVERTERS, keyed by (parameter, from_unit). -/
def CONVERTERS : List ((String × String) × ConvFn) := [
  (("temperature", "F"), .fToC),
  (("temperature", "K"), .kToC),
  (("temperature", "C"), .idc),
  (("conductivity", "mS/cm"), .msToUs),
  (("conductivity", "µS/cm"), .idc),
  (("dissolved_oxygen", "mg/L"), .idc),
  (("dissolved_oxygen", "ppm"), .ppmToMg),
  (("total_phosphorus", "µg/L"), .ugToMg),
  (("nitrate", "µg/L"), .ugToMg),
  (("nitrite", "µg/L"), .ugToMg),
  (("ammonium", "µg/L"), .ugToMg),
  (("phosphate", "µg/L"), .ugToMg),
  (("total_phosphorus", "mg/L"), .idc),
  (("total_nitrogen", "mg/L"), .idc),
  (("organic_nitrogen", "mg/L"), .idc),
  (("sulfate", "mg/L"), .idc),
  (("chloride", "mg/L"), .idc),
  (("fluoride", "mg/L"), .idc),
  (("potassium", "mg/L"), .idc),
  (("toc", "mg/L"), .idc),
  (("chlorophyll", "µg/L"), .idc),
  (("chlorophyll_a", "µg/L"), .idc),
  (("pheopigments", "µg/L"), .idc),
  (("microcystins", "µg/L"), .idc),
  (("saxitoxina", "µg/L"), .idc),
  (("secchi_depth", "m"), .idc),
  (("photic_zone_depth", "m"), .idc),
  (("redox", "mV"), .idc),
  (("uv_absorbance", "absorbance"), .idc),
  (("suva", "L/mg·m"), .idc),
  (("color_real", "PtCo"), .idc),
  (("total_eukaryotic_algae", "cells/mL"), .idc),
  (("total_cyanobacteria", "cells/mL"), .idc),
  (("diatoms", "cells/mL"), .idc),
  (("ceratium", "cells/mL"), .idc),
  (("peridinium", "cells/mL"), .idc),
  (("dynobryon", "cells/mL"), .idc),
  (("cryptomonas", "cells/mL"), .idc),
  (("eudorina_pandorina", "cells/mL"), .idc),
  (("staurastrum", "cells/mL"), .idc),
  (("woronochinia", "cells/mL"), .idc),
  (("dolichospermum", "cells/mL"), .idc),
  (("aphanizomenon", "cells/mL"), .idc),
  (("e_coli", "CFU/100mL"), .idc)]

def convLookup (param from_unit : String) : Option ConvFn :=
  (CONVERTERS.find? (fun e => e.1.1 = param && e.1.2 = from_unit)).map Prod.snd

/-- unit_convertor.py `convert_series`: (a) unknown parameter → input
unchanged, not converted; (b) source unit already standard → numeric-coerce
only, not converted; (c) registered converter → apply, standard unit,
converted; (d) otherwise input unchanged, not converted.  The converters
are pure, so the try/except fail-safe never fires in the model. -/
def convert_series (param from_unit : String) (series : List Cell) :
    List Cell × String × Bool :=
  match STANDARD_UNITS.lookup param with
  | none => (series, from_unit, false)
  | some unit_to =>
    if from_unit = unit_to then (series.map coerceCell, unit_to, false)
    else
      match convLookup param from_unit with
      | none => (series, from_unit, false)
      | some fn => (fn.apply series, unit_to, true)

end UnitConvertor

namespace Harmonize

/-! ### Mapping validation loop (harmonize.py "Map & Harmonize", the
`for item in mapping` loop building `rows`)

A classifier suggestion and its validated output row.  The `samples`
column (first five cells of the matched source column) is display-only and
omitted; confidences stay exact rationals (the Python `round(·, 3)` is a
display rounding of the already-capped value). -/

structure Suggestion : Type where
  raw_header : String
  map_to : String
  confidence : ℚ
  unit_map_to : String
  unit_confidence : ℚ
deriving DecidableEq, Repr

structure ValidatedRow : Type where
  raw_header : String
  suggested_map_to : String
  confidence : ℚ
  unit_map_to : String
  unit_confidence : ℚ
deriving DecidableEq, Repr

def param_set : List String := DbUtil.CONTROLLED_UNIT_VOCAB.map Prod.fst

def meta_set : List String := DbUtil.CONTROLLED_META_VOCAB

/-- Validation of one suggestion: a field outside the registry (params,
metas, "unknown") is forced to "unknown" with confidence capped at 0.5; a
unit outside the allowed list of the (possibly corrected) field that is
not one of the three sentinels is forced to "unknown" with unit
confidence capped at 0.4. -/
def validateItem (it : Suggestion) : ValidatedRow :=
  let mapped0 := trimStr it.map_to
  let conf0 := it.confidence
  let mc :=
    if mapped0 ∈ param_set || mapped0 ∈ meta_set || mapped0 = "unknown"
    then (mapped0, conf0) else ("unknown", min conf0 (1/2))
  let allowed := (DbUtil.CONTROLLED_UNIT_VOCAB.lookup mc.1).getD []
  let um0 := trimStr it.unit_map_to
  let uc0 := it.unit_confidence
  let uu :=
    if um0 ∈ allowed || um0 = "unknown" || um0 = "not_present" || um0 = "not_applicable"
    then (um0, uc0) else ("unknown", min uc0 (2/5))
  { raw_header := it.raw_header, suggested_map_to := mc.1, confidence := mc.2,
    unit_map_to := uu.1, unit_confidence := uu.2 }

/-- `norm_index = {_norm_col(c): c for c in df.columns}` followed by
`.get(_norm_col(raw))`: a dict comprehension keeps the LAST column whose
normalized form collides, hence the reverse search. -/
def lookupSrc (cols : List String) (raw : String) : Option String :=
  cols.reverse.find? (fun c => normCol c = normCol raw)

/-- The validation loop with its `used_src_rows` accumulator: a suggestion
whose resolved source column was already claimed is skipped entirely
(`continue`); a suggestion is appended when its column is fresh or when it
resolves to no column at all. -/
def validateLoop (cols : List String) : List Suggestion → List String → List ValidatedRow
  | [], _ => []
  | it :: rest, used =>
    match lookupSrc cols it.raw_header with
    | some s =>
      if s ∈ used then validateLoop cols rest used
      else validateItem it :: validateLoop cols rest (s :: used)
    | none => validateItem it :: validateLoop cols rest used

def mapValidation (cols : List String) (items : List Suggestion) : List ValidatedRow :=
  validateLoop cols items []

/-- The suggestions the loop keeps (first-claim-wins on source columns);
`mapValidation` is `validateItem` mapped over this subsequence. -/
def keepLoop (cols : List String) : List Suggestion → List String → List Suggestion
  | [], _ => []
  | it :: rest, used =>
    match lookupSrc cols it.raw_header with
    | some s =>
      if s ∈ used then keepLoop cols rest used
      else it :: keepLoop cols rest (s :: used)
    | none => it :: keepLoop cols rest used

def keptSuggestions (cols : List String) (items : List Suggestion) : List Suggestion :=
  keepLoop cols items []

end Harmonize

end WaterProject


namespace WaterProject

open DbUtil UnitConvertor Harmonize

/-! ## Theorems settling the claims -/

/-- Claim C5.  Every long record in a batch is assigned exactly one quality
flag (the flags Series is aligned one-to-one with the batch and each entry
is one of missing / out_of_range / outlier / ok), the priority is
missing > out_of_range > outlier > ok with first match winning: an absent
value is always flagged missing regardless of anything else in the batch,
a present value outside its plausible range is always flagged
out_of_range, and a present in-range value is never flagged missing or
out_of_range. -/
theorem C5_quality_flag_priority (df : List DbUtil.LongRec) :
    (DbUtil.computeQualityFlags df).length = df.length ∧
    DbUtil.computeQualityFlags df = df.map (DbUtil.computeFlag df) ∧
    ∀ r ∈ df,
      (DbUtil.computeFlag df r = .missing ∨ DbUtil.computeFlag df r = .out_of_range ∨
        DbUtil.computeFlag df r = .outlier ∨ DbUtil.computeFlag df r = .ok) ∧
      (r.value = none → DbUtil.computeFlag df r = .missing) ∧
      (∀ v, r.value = some v → DbUtil.outOfRange r.parameter_code v = true →
        DbUtil.computeFlag df r = .out_of_range) ∧
      (∀ v, r.value = some v → DbUtil.outOfRange r.parameter_code v = false →
        DbUtil.computeFlag df r ≠ .missing ∧ DbUtil.computeFlag df r ≠ .out_of_range) := by
  refine ⟨by simp [DbUtil.computeQualityFlags], rfl, ?_⟩
  intro r _
  refine ⟨?_, ?_, ?_, ?_⟩
  · cases hv : r.value with
    | none => simp [DbUtil.computeFlag, hv]
    | some v =>
      simp only [DbUtil.computeFlag, hv]
      split
      · simp
      · split
        · simp
        · split
          · simp
          · split <;> simp
  · intro hv; simp [DbUtil.computeFlag, hv]
  · intro v hv hoor; simp [DbUtil.computeFlag, hv, hoor]
  · intro v hv hoor
    simp only [DbUtil.computeFlag, hv, hoor]
    constructor
    · split
      · simp_all
      · split
        · simp
        · split
          · simp
          · split <;> simp
    · split
      · simp_all
      · split
        · simp
        · split
          · simp
          · split <;> simp

/-- Witness for C5 at a concrete two-record batch: a record with an absent
value is flagged missing and a present ph value of 15 (outside the
registered plausible range [0, 14]) is flagged out_of_range. -/
theorem C5_quality_flag_priority_witness :
    let rmiss : DbUtil.LongRec :=
      { ts := none, sampling_point := none, parameter_code := "ph",
        unit := none, value := none, source_column := some "c1" }
    let roor : DbUtil.LongRec :=
      { ts := none, sampling_point := none, parameter_code := "ph",
        unit := none, value := some 15, source_column := some "c2" }
    (DbUtil.computeQualityFlags [rmiss, roor]).length = 2 ∧
    DbUtil.computeFlag [rmiss, roor] rmiss = .missing ∧
    DbUtil.computeFlag [rmiss, roor] roor = .out_of_range := by
  intro rmiss roor
  obtain ⟨hlen, -, hall⟩ := C5_quality_flag_priority [rmiss, roor]
  refine ⟨hlen, ?_, ?_⟩
  · exact (hall rmiss (by simp)).2.1 rfl
  · exact (hall roor (by simp)).2.2.1 15 rfl (by decide)

/-- Claim C6.  For a record whose value is present and within plausible
range, outlier detection over its parameter's non-missing,
non-out-of-range batch values: with fewer than 5 such values the record
falls through to ok (never outlier); with a zero IQR it likewise falls
through to ok; otherwise the record is flagged outlier exactly when its
value lies below Q1 - 3*IQR or above Q3 + 3*IQR. -/
theorem C6_outlier_fence (df : List DbUtil.LongRec) (r : DbUtil.LongRec) (_hr : r ∈ df)
    (v : ℚ) (hv : r.value = some v)
    (hoor : DbUtil.outOfRange r.parameter_code v = false) :
    ((DbUtil.remainingVals df r.parameter_code).length < 5 →
      DbUtil.computeFlag df r = .ok) ∧
    (¬ (DbUtil.remainingVals df r.parameter_code).length < 5 →
      DbUtil.groupIQR df r.parameter_code = 0 → DbUtil.computeFlag df r = .ok) ∧
    (¬ (DbUtil.remainingVals df r.parameter_code).length < 5 →
      DbUtil.groupIQR df r.parameter_code ≠ 0 →
      (DbUtil.computeFlag df r = .outlier ↔
        (v < DbUtil.groupQ1 df r.parameter_code - 3 * DbUtil.groupIQR df r.parameter_code ∨
         DbUtil.groupQ3 df r.parameter_code + 3 * DbUtil.groupIQR df r.parameter_code < v))) := by
  refine ⟨?_, ?_, ?_⟩
  · intro hlt
    simp [DbUtil.computeFlag, hv, hoor, hlt]
  · intro hge hiqr
    simp only [DbUtil.computeFlag, hv, hoor, Bool.false_eq_true, if_false]
    rw [if_neg hge, if_pos hiqr]
  · intro hge hiqr
    simp only [DbUtil.computeFlag, hv, hoor, Bool.false_eq_true, if_false]
    rw [if_neg hge, if_neg hiqr]
    constructor
    · intro h
      by_contra hout
      rw [if_neg ?_] at h
      · exact absurd h (by simp)
      · simp only [Bool.or_eq_true, decide_eq_true_eq]
        exact hout
    · intro hout
      rw [if_pos ?_]
      simp only [Bool.or_eq_true, decide_eq_true_eq]
      exact hout

/-- Witness for C6 at a concrete five-record batch for parameter "foo"
with values 1, 1, 2, 3, 100: the group has 5 remaining values, Q1 = 1,
Q3 = 3, IQR = 2, the fence is [-5, 9], and the record with value 100 is
flagged outlier. -/
theorem C6_outlier_fence_witness :
    let mk : ℚ → DbUtil.LongRec := fun q =>
      { ts := none, sampling_point := none, parameter_code := "foo",
        unit := none, value := some q, source_column := some "c" }
    let df := [mk 1, mk 1, mk 2, mk 3, mk 100]
    ¬ (DbUtil.remainingVals df "foo").length < 5 ∧
    DbUtil.groupQ1 df "foo" = 1 ∧
    DbUtil.groupQ3 df "foo" = 3 ∧
    DbUtil.groupIQR df "foo" = 2 ∧
    DbUtil.computeFlag df (mk 100) = .outlier := by
  intro mk df
  have hvs : DbUtil.remainingVals df "foo" = [1, 1, 2, 3, 100] := by
    simp [DbUtil.remainingVals, df, mk, DbUtil.outOfRange, List.lookup, DbUtil.PLAUSIBLE_RANGE]
  have hs : DbUtil.sortQ (DbUtil.remainingVals df "foo") = [1, 1, 2, 3, 100] := by
    rw [hvs]; norm_num [DbUtil.sortQ, DbUtil.insertSortedQ]
  have hq1 : DbUtil.groupQ1 df "foo" = 1 := by
    rw [DbUtil.groupQ1, hs]
    norm_num [DbUtil.quantileLin, DbUtil.ratFloorNat, List.getD]
  have hq3 : DbUtil.groupQ3 df "foo" = 3 := by
    rw [DbUtil.groupQ3, hs]
    norm_num [DbUtil.quantileLin, DbUtil.ratFloorNat, List.getD, Int.toNat]
  have hiqr : DbUtil.groupIQR df "foo" = 2 := by
    rw [DbUtil.groupIQR, hq1, hq3]; norm_num
  have h := C6_outlier_fence df (mk 100) (by simp [df]) 100 rfl
    (by simp [DbUtil.outOfRange, List.lookup, DbUtil.PLAUSIBLE_RANGE])
  refine ⟨by rw [hvs]; norm_num, hq1, hq3, hiqr, ?_⟩
  refine (h.2.2 (by rw [hvs]; norm_num) (by rw [hiqr]; norm_num)).mpr ?_
  rw [hq1, hq3, hiqr]; norm_num

/-- Claim C9.  convert_series applies its four rules in order: (a) a
parameter absent from the converter registry's standard-unit table returns
the input unchanged with converted = false; (b) a source unit equal to the
standard unit returns the numeric-coerced values with converted = false;
(c) a registered (parameter, source-unit) converter is applied and returns
the standard unit with converted = true; (d) otherwise the input and the
source unit are returned unchanged with converted = false. -/
theorem C9_convert_series_rules (param from_unit : String) (series : List UnitConvertor.Cell) :
    (UnitConvertor.STANDARD_UNITS.lookup param = none →
      UnitConvertor.convert_series param from_unit series = (series, from_unit, false)) ∧
    (∀ u, UnitConvertor.STANDARD_UNITS.lookup param = some u → from_unit = u →
      UnitConvertor.convert_series param from_unit series =
        (series.map UnitConvertor.coerceCell, u, false)) ∧
    (∀ u fn, UnitConvertor.STANDARD_UNITS.lookup param = some u → from_unit ≠ u →
      UnitConvertor.convLookup param from_unit = some fn →
      UnitConvertor.convert_series param from_unit series = (fn.apply series, u, true)) ∧
    (∀ u, UnitConvertor.STANDARD_UNITS.lookup param = some u → from_unit ≠ u →
      UnitConvertor.convLookup param from_unit = none →
      UnitConvertor.convert_series param from_unit series = (series, from_unit, false)) := by
  refine ⟨?_, ?_, ?_, ?_⟩
  · intro h
    simp [UnitConvertor.convert_series, h]
  · intro u hu he
    simp [UnitConvertor.convert_series, hu, he]
  · intro u fn hu hne hfn
    simp [UnitConvertor.convert_series, hu, hne, hfn]
  · intro u hu hne hfn
    simp [UnitConvertor.convert_series, hu, hne, hfn]

/-- Witness for C9: rule (c) at the spec's own example, a temperature
column in Fahrenheit with values [32, 212] converts to standard unit "C"
as [0, 100] with converted = true; rule (a) at an unknown parameter; rule
(d) at an unsupported (salinity, "ppt") conversion. -/
theorem C9_convert_series_rules_witness :
    UnitConvertor.convert_series "temperature" "F" [.num 32, .num 212] =
      ([.num 0, .num 100], "C", true) ∧
    UnitConvertor.convert_series "mystery" "X" [.num 1] = ([.num 1], "X", false) ∧
    UnitConvertor.convert_series "salinity" "ppt" [.num 1] = ([.num 1], "ppt", false) := by
  refine ⟨?_, ?_, ?_⟩
  · have h := (C9_convert_series_rules "temperature" "F" [.num 32, .num 212]).2.2.1
      "C" .fToC (by decide) (by decide) (by decide)
    rw [h]
    norm_num [UnitConvertor.ConvFn.apply, UnitConvertor.ConvFn.applyVal, UnitConvertor.coerceCell]
  · exact (C9_convert_series_rules "mystery" "X" [.num 1]).1 (by decide)
  · exact (C9_convert_series_rules "salinity" "ppt" [.num 1]).2.2.2
      "PSU" (by decide) (by decide) (by decide)

/-- Claim C7.  Dataset registration is idempotent on the content
fingerprint: when a content hash is supplied and a dataset with that hash
exists, the call returns that dataset's identity and the table keeps the
same length, with every row unchanged except that the matching row's
uploaded_at is refreshed to now; when no fingerprint is supplied the call
always appends one fresh dataset row. -/
theorem C7_register_dataset_idempotent (store : List DbUtil.DRow) (newId : String) (now : Nat)
    (client_id file_name : String) (sheet_name : Option String)
    (row_count col_count : Nat) (waterbody_id : Option String)
    (hc : client_id ≠ "") (hf : file_name ≠ "") :
    (∀ h old, store.find? (fun e => e.content_hash = some h) = some old →
      ∃ store2,
        DbUtil.registerDataset store newId now client_id file_name sheet_name
          row_count col_count waterbody_id (some h) = some (old.dataset_id, store2) ∧
        store2.length = store.length ∧
        ∀ i (hi : i < store.length) (hi2 : i < store2.length),
          store2.get ⟨i, hi2⟩ =
            (if (store.get ⟨i, hi⟩).content_hash = some h
             then { store.get ⟨i, hi⟩ with uploaded_at := now }
             else store.get ⟨i, hi⟩)) ∧
    (∃ row, DbUtil.registerDataset store newId now client_id file_name sheet_name
        row_count col_count waterbody_id none = some (newId, store ++ [row]) ∧
      (store ++ [row]).length = store.length + 1) := by
  constructor
  · intro h old hfind
    refine ⟨store.map (fun e => if e.content_hash = some h then { e with uploaded_at := now } else e),
      ?_, by simp, ?_⟩
    · simp [DbUtil.registerDataset, hc, hf, hfind]
    · intro i hi hi2
      simp [List.get_eq_getElem, List.getElem_map]
  · refine ⟨{ dataset_id := newId, client_id := client_id,
              waterbody_id := waterbody_id, file_name := file_name,
              sheet_name := sheet_name, row_count := row_count,
              col_count := col_count, content_hash := none, uploaded_at := now }, ?_, by simp⟩
    simp [DbUtil.registerDataset, hc, hf]

/-- Witness for C7: a one-row store holding hash "h" is re-registered with
hash "h" — the existing id "d1" comes back, the store still has one row
and the row keeps its identity with a refreshed uploaded_at; registering
with no hash grows a fresh row. -/
theorem C7_register_dataset_idempotent_witness :
    let old : DbUtil.DRow :=
      { dataset_id := "d1", client_id := "c", waterbody_id := none,
        file_name := "f.csv", sheet_name := none, row_count := 2,
        col_count := 3, content_hash := some "h", uploaded_at := 5 }
    (∃ store2,
      DbUtil.registerDataset [old] "d2" 9 "c" "f.csv" none 2 3 none (some "h") =
        some ("d1", store2) ∧
      store2.length = 1 ∧
      ∀ i (hi : i < 1) (hi2 : i < store2.length),
        store2.get ⟨i, hi2⟩ =
          (if ([old].get ⟨i, hi⟩).content_hash = some "h"
           then { [old].get ⟨i, hi⟩ with uploaded_at := 9 }
           else [old].get ⟨i, hi⟩)) ∧
    (∃ row, DbUtil.registerDataset [old] "d2" 9 "c" "f.csv" none 2 3 none none =
        some ("d2", [old] ++ [row]) ∧ ([old] ++ [row]).length = 2) := by
  intro old
  have h := C7_register_dataset_idempotent [old] "d2" 9 "c" "f.csv" none 2 3 none
    (by decide) (by decide)
  exact ⟨h.1 "h" old (by decide), h.2⟩

/-- Claim C8.  Waterbody upsert on an existing identity (client, name,
type) sets the stored confidence to max(existing, incoming) — so it never
decreases across a merge — and sets provenance to the set union of the
existing and incoming tags, so a tag is in the merged provenance exactly
when it was in either side and no existing tag is ever lost; rows with a
different identity are untouched and the table keeps its length. -/
theorem C8_waterbody_merge (store : List DbUtil.WBRow) (newId client_id : String)
    (name0 wtype0 : Option String) (conf0 : Option ℚ) (prov0 : List String)
    (name wtype : String) (old : DbUtil.WBRow)
    (hc : client_id ≠ "")
    (hname : DbUtil.norm_str name0 = some name)
    (htype : DbUtil.norm_str wtype0 = some wtype)
    (hvalid : wtype ∈ DbUtil.VALID_WB_TYPES)
    (hfind : store.find? (fun e => e.client_id = client_id && e.name = name && e.wtype = wtype) =
      some old) :
    ∃ store2,
      DbUtil.upsertWaterbody store newId client_id name0 wtype0 conf0 prov0 =
        some (old.waterbody_id, store2) ∧
      store2.length = store.length ∧
      ∀ i (hi : i < store.length) (hi2 : i < store2.length),
        (((store.get ⟨i, hi⟩).client_id = client_id ∧ (store.get ⟨i, hi⟩).name = name ∧
            (store.get ⟨i, hi⟩).wtype = wtype) →
          (store2.get ⟨i, hi2⟩).confidence =
              max (store.get ⟨i, hi⟩).confidence (conf0.getD 0) ∧
          (store.get ⟨i, hi⟩).confidence ≤ (store2.get ⟨i, hi2⟩).confidence ∧
          ∀ t, t ∈ (store2.get ⟨i, hi2⟩).provenance ↔
            (t ∈ (store.get ⟨i, hi⟩).provenance ∨ t ∈ prov0)) ∧
        (¬ ((store.get ⟨i, hi⟩).client_id = client_id ∧ (store.get ⟨i, hi⟩).name = name ∧
            (store.get ⟨i, hi⟩).wtype = wtype) →
          store2.get ⟨i, hi2⟩ = store.get ⟨i, hi⟩) := by
  have hstep :
      DbUtil.upsertWaterbody store newId client_id name0 wtype0 conf0 prov0 =
        some (old.waterbody_id, store.map (fun e =>
          if e.client_id = client_id && e.name = name && e.wtype = wtype
          then DbUtil.wbOnConflict e
            { waterbody_id := newId, client_id := client_id, name := name,
              wtype := wtype, confidence := conf0.getD 0, provenance := prov0 }
          else e)) := by
    unfold DbUtil.upsertWaterbody
    rw [if_neg hc]
    simp only [hname, htype]
    rw [if_pos hvalid, hfind]
  refine ⟨_, hstep, by simp, ?_⟩
  intro i hi hi2
  simp only [List.get_eq_getElem, List.getElem_map]
  constructor
  · intro hkey
    rw [if_pos (by simp [hkey.1, hkey.2.1, hkey.2.2])]
    refine ⟨rfl, le_max_left _ _, ?_⟩
    intro t
    simp [DbUtil.wbOnConflict, List.mem_dedup]
  · intro hkey
    rw [if_neg ?_]
    · intro hcond
      apply hkey
      simp only [Bool.and_eq_true, decide_eq_true_eq] at hcond
      exact ⟨hcond.1.1, hcond.1.2, hcond.2⟩

/-- Witness for C8 at the spec's own numbers: an existing row with
confidence 0.4 and provenance ["llm"] merged with an incoming 0.7 and
["fallback"] yields confidence 0.7, no loss of the "llm" tag, and both
tags present. -/
theorem C8_waterbody_merge_witness :
    let old : DbUtil.WBRow :=
      { waterbody_id := "w1", client_id := "c", name := "embalse",
        wtype := "reservoir", confidence := mkRat 2 5, provenance := ["llm"] }
    ∃ store2,
      DbUtil.upsertWaterbody [old] "w2" "c" (some "embalse") (some "reservoir")
          (some (mkRat 7 10)) ["fallback"] = some ("w1", store2) ∧
      store2.length = 1 ∧
      ∀ i (hi : i < 1) (hi2 : i < store2.length),
        ((([old].get ⟨i, hi⟩).client_id = "c" ∧ ([old].get ⟨i, hi⟩).name = "embalse" ∧
            ([old].get ⟨i, hi⟩).wtype = "reservoir") →
          (store2.get ⟨i, hi2⟩).confidence =
              max ([old].get ⟨i, hi⟩).confidence ((some (mkRat 7 10)).getD 0) ∧
          ([old].get ⟨i, hi⟩).confidence ≤ (store2.get ⟨i, hi2⟩).confidence ∧
          ∀ t, t ∈ (store2.get ⟨i, hi2⟩).provenance ↔
            (t ∈ ([old].get ⟨i, hi⟩).provenance ∨ t ∈ ["fallback"])) ∧
        (¬ (([old].get ⟨i, hi⟩).client_id = "c" ∧ ([old].get ⟨i, hi⟩).name = "embalse" ∧
            ([old].get ⟨i, hi⟩).wtype = "reservoir") →
          store2.get ⟨i, hi2⟩ = [old].get ⟨i, hi⟩) := by
  intro old
  exact C8_waterbody_merge [old] "w2" "c" (some "embalse") (some "reservoir")
    (some (mkRat 7 10)) ["fallback"] "embalse" "reservoir" old
    (by decide) (by decide) (by decide) (by decide) (by decide)

/-- Claim C1 counterexample.  The claim says a previously set lat is never
replaced: an existing lat of 6.10 merged with an incoming lat of 6.20
should leave lat at 6.10.  The code's ON CONFLICT merge is
COALESCE(EXCLUDED.lat, existing.lat), so the upsert stores 6.20. -/
theorem C1_fill_if_absent_counterexample :
    (DbUtil.upsertSamplingPointRow
        [{ sampling_point_id := "s1", client_id := "c", waterbody_id := none,
           code := "P1", name := some "P1", lat := some (mkRat 61 10),
           lon := some 7, depth_m := none }]
        "s2" "c" none (some "P1") (some (mkRat 62 10)) (some 7) none).map
      DbUtil.SPRow.lat = [some (mkRat 62 10)] ∧
    mkRat 62 10 ≠ mkRat 61 10 := by
  constructor
  · decide
  · decide

/-- Claim C1 amended.  Sampling-point upsert onto an existing
(client, normalized code) point uses incoming-wins merge semantics, the
reverse of fill-if-absent: each mergeable field becomes
COALESCE(incoming, existing), so a present incoming value always
overwrites the stored field (even a set one), and a stored field survives
only when the incoming field is absent; non-matching rows are untouched
and the table keeps its length.  (Both coordinates are assumed present so
the preset fallback does not fire.) -/
theorem C1_sampling_point_merge (store : List DbUtil.SPRow) (newId client_id : String)
    (waterbody_id : Option String) (rawCode : Option String)
    (lat0 lon0 depth0 : Option ℚ) (code : String)
    (hcode : DbUtil.norm_str rawCode = some code)
    (hlat : lat0 ≠ none) (hlon : lon0 ≠ none)
    (hexist : store.any (fun e => e.client_id = client_id && e.code = code) = true) :
    (DbUtil.upsertSamplingPointRow store newId client_id waterbody_id rawCode
        lat0 lon0 depth0).length = store.length ∧
    ∀ i (hi : i < store.length)
      (hi2 : i < (DbUtil.upsertSamplingPointRow store newId client_id waterbody_id rawCode
        lat0 lon0 depth0).length),
      (((store.get ⟨i, hi⟩).client_id = client_id ∧ (store.get ⟨i, hi⟩).code = code) →
        ((DbUtil.upsertSamplingPointRow store newId client_id waterbody_id rawCode
            lat0 lon0 depth0).get ⟨i, hi2⟩).lat = coalesce lat0 (store.get ⟨i, hi⟩).lat ∧
        ((DbUtil.upsertSamplingPointRow store newId client_id waterbody_id rawCode
            lat0 lon0 depth0).get ⟨i, hi2⟩).lon = coalesce lon0 (store.get ⟨i, hi⟩).lon ∧
        ((DbUtil.upsertSamplingPointRow store newId client_id waterbody_id rawCode
            lat0 lon0 depth0).get ⟨i, hi2⟩).name = some code ∧
        ((DbUtil.upsertSamplingPointRow store newId client_id waterbody_id rawCode
            lat0 lon0 depth0).get ⟨i, hi2⟩).waterbody_id =
          coalesce waterbody_id (store.get ⟨i, hi⟩).waterbody_id ∧
        (∀ v, lat0 = some v →
          ((DbUtil.upsertSamplingPointRow store newId client_id waterbody_id rawCode
              lat0 lon0 depth0).get ⟨i, hi2⟩).lat = some v) ∧
        (∀ v, depth0 = some v →
          ((DbUtil.upsertSamplingPointRow store newId client_id waterbody_id rawCode
              lat0 lon0 depth0).get ⟨i, hi2⟩).depth_m = some v) ∧
        (depth0 = none →
          ((DbUtil.upsertSamplingPointRow store newId client_id waterbody_id rawCode
              lat0 lon0 depth0).get ⟨i, hi2⟩).depth_m = (store.get ⟨i, hi⟩).depth_m)) ∧
      (¬ ((store.get ⟨i, hi⟩).client_id = client_id ∧ (store.get ⟨i, hi⟩).code = code) →
        (DbUtil.upsertSamplingPointRow store newId client_id waterbody_id rawCode
            lat0 lon0 depth0).get ⟨i, hi2⟩ = store.get ⟨i, hi⟩) := by
  have hcond : (lat0 = none || lon0 = none) = false := by
    simp [hlat, hlon]
  have hstep :
      DbUtil.upsertSamplingPointRow store newId client_id waterbody_id rawCode
          lat0 lon0 depth0 =
        store.map (fun e =>
          if e.client_id = client_id && e.code = code
          then DbUtil.spOnConflict e
            { sampling_point_id := newId, client_id := client_id,
              waterbody_id := waterbody_id, code := code, name := some code,
              lat := lat0, lon := lon0, depth_m := depth0 }
          else e) := by
    unfold DbUtil.upsertSamplingPointRow
    simp only [hcode]
    rw [hcond]
    unfold DbUtil.upsertSPRow
    simp only [Bool.false_eq_true, if_false]
    rw [if_pos hexist]
  rw [hstep]
  refine ⟨by simp, ?_⟩
  intro i hi hi2
  simp only [List.get_eq_getElem, List.getElem_map]
  constructor
  · intro hkey
    rw [if_pos (by simp [hkey.1, hkey.2])]
    refine ⟨rfl, rfl, ?_, rfl, ?_, ?_, ?_⟩
    · cases hn : (store.get ⟨i, hi⟩).name <;> rfl
    · intro v hv
      simp [DbUtil.spOnConflict, hv, coalesce]
    · intro v hv
      simp [DbUtil.spOnConflict, hv, coalesce]
    · intro hv
      simp [DbUtil.spOnConflict, hv, coalesce]
  · intro hkey
    rw [if_neg ?_]
    · intro hcond2
      apply hkey
      simp only [Bool.and_eq_true, decide_eq_true_eq] at hcond2
      exact ⟨hcond2.1, hcond2.2⟩

/-- Witness for the amended C1 at the 6.10 / 6.20 example: the incoming
6.20 overwrites the stored 6.10, an incoming absent depth leaves the
stored depth 3 in place, and the stored name is replaced by the incoming
code alias. -/
theorem C1_sampling_point_merge_witness :
    let ex : DbUtil.SPRow :=
      { sampling_point_id := "s1", client_id := "c", waterbody_id := none,
        code := "P1", name := some "P1", lat := some (mkRat 61 10),
        lon := some 7, depth_m := some 3 }
    (DbUtil.upsertSamplingPointRow [ex] "s2" "c" none (some "P1")
        (some (mkRat 62 10)) (some 7) none).length = 1 ∧
    ((DbUtil.upsertSamplingPointRow [ex] "s2" "c" none (some "P1")
        (some (mkRat 62 10)) (some 7) none).get
      ⟨0, by decide⟩).lat = some (mkRat 62 10) := by
  intro ex
  have h := C1_sampling_point_merge [ex] "s2" "c" none (some "P1")
    (some (mkRat 62 10)) (some 7) none "P1" (by decide) (by decide) (by decide)
    (by decide)
  refine ⟨h.1, ?_⟩
  have h2 := (h.2 0 (by decide) (by decide)).1 (by exact ⟨rfl, rfl⟩)
  exact h2.2.2.2.2.1 (mkRat 62 10) rfl

/-- The validation loop is `validateItem` mapped over the suggestions it
keeps. -/
theorem validateLoop_eq_keep (cols : List String) (items : List Harmonize.Suggestion) :
    ∀ used : List String,
      Harmonize.validateLoop cols items used =
        (Harmonize.keepLoop cols items used).map Harmonize.validateItem := by
  induction items with
  | nil => intro used; rfl
  | cons it rest ih =>
    intro used
    simp only [Harmonize.validateLoop, Harmonize.keepLoop]
    cases hl : Harmonize.lookupSrc cols it.raw_header with
    | none => simp [ih]
    | some s =>
      dsimp only
      by_cases hu : s ∈ used
      · rw [if_pos hu, if_pos hu]
        exact ih used
      · rw [if_neg hu, if_neg hu]
        simp [ih]

/-- The kept suggestions form a subsequence of the input: order is
preserved and nothing is reordered or duplicated. -/
theorem keepLoop_sublist (cols : List String) (items : List Harmonize.Suggestion) :
    ∀ used : List String, List.Sublist (Harmonize.keepLoop cols items used) items := by
  induction items with
  | nil => intro used; simp [Harmonize.keepLoop]
  | cons it rest ih =>
    intro used
    simp only [Harmonize.keepLoop]
    cases hl : Harmonize.lookupSrc cols it.raw_header with
    | none => exact List.Sublist.cons₂ it (ih used)
    | some s =>
      dsimp only
      by_cases hu : s ∈ used
      · rw [if_pos hu]
        exact List.Sublist.cons it (ih used)
      · rw [if_neg hu]
        exact List.Sublist.cons₂ it (ih (s :: used))

/-- When no two suggestions resolve to the same source column, nothing is
dropped. -/
theorem keepLoop_eq_self (cols : List String) (items : List Harmonize.Suggestion) :
    ∀ used : List String,
      items.Pairwise (fun a b => Harmonize.lookupSrc cols a.raw_header = none ∨
        ¬ Harmonize.lookupSrc cols b.raw_header = Harmonize.lookupSrc cols a.raw_header) →
      (∀ it ∈ items, ∀ s, Harmonize.lookupSrc cols it.raw_header = some s → s ∉ used) →
      Harmonize.keepLoop cols items used = items := by
  induction items with
  | nil => intro used _ _; rfl
  | cons it rest ih =>
    intro used hp hused
    rw [List.pairwise_cons] at hp
    simp only [Harmonize.keepLoop]
    cases hl : Harmonize.lookupSrc cols it.raw_header with
    | none =>
      rw [ih used hp.2 (fun it2 h2 s hs => hused it2 (List.mem_cons_of_mem _ h2) s hs)]
    | some s =>
      dsimp only
      rw [if_neg (hused it (List.mem_cons_self _ _) s hl)]
      rw [ih (s :: used) hp.2 ?_]
      intro it2 h2 t ht hmem
      rcases List.mem_cons.mp hmem with rfl | hmem2
      · rcases hp.1 it2 h2 with hnone | hne
        · rw [hl] at hnone
          exact Option.noConfusion hnone
        · rw [hl] at hne
          exact hne ht
      · exact hused it2 (List.mem_cons_of_mem _ h2) t ht hmem2

/-- Claim C4 counterexample.  Two suggestions claiming the same source
column "a" produce a single validated row: the output cardinality is 1,
not the input cardinality 2, so "same cardinality as the input" fails
whenever a duplicate claim occurs. -/
theorem C4_same_cardinality_counterexample :
    (Harmonize.mapValidation ["a"]
      [{ raw_header := "a", map_to := "ph", confidence := 1,
         unit_map_to := "unitless", unit_confidence := 1 },
       { raw_header := "a", map_to := "temperature", confidence := 1,
         unit_map_to := "C", unit_confidence := 1 }]).length = 1 ∧
    (1 : Nat) ≠ 2 := by
  constructor
  · decide
  · decide

/-- Claim C4 amended.  The mapping validator emits exactly one validated
(field, unit, confidences) row per kept suggestion, in input order (the
kept suggestions are a subsequence of the input), where a suggestion is
dropped entirely when its resolved source column was already claimed by an
earlier suggestion (first-claim-wins); when no two suggestions resolve to
the same source column nothing is dropped, and only then does the output
have the same cardinality as the input. -/
theorem C4_mapping_validation (cols : List String) (items : List Harmonize.Suggestion) :
    Harmonize.mapValidation cols items =
      (Harmonize.keptSuggestions cols items).map Harmonize.validateItem ∧
    List.Sublist (Harmonize.keptSuggestions cols items) items ∧
    (items.Pairwise (fun a b => Harmonize.lookupSrc cols a.raw_header = none ∨
        ¬ Harmonize.lookupSrc cols b.raw_header = Harmonize.lookupSrc cols a.raw_header) →
      Harmonize.keptSuggestions cols items = items) := by
  refine ⟨validateLoop_eq_keep cols items [], keepLoop_sublist cols items [], ?_⟩
  intro hp
  exact keepLoop_eq_self cols items [] hp (by simp)

/-- Witness for the amended C4: two suggestions on distinct columns "a"
and "b" are both kept, the output is the validation image of the input in
order, and the cardinality matches. -/
theorem C4_mapping_validation_witness :
    let sa : Harmonize.Suggestion :=
      { raw_header := "a", map_to := "ph", confidence := 1,
        unit_map_to := "unitless", unit_confidence := 1 }
    let sb : Harmonize.Suggestion :=
      { raw_header := "b", map_to := "temperature", confidence := 1,
        unit_map_to := "C", unit_confidence := 1 }
    Harmonize.keptSuggestions ["a", "b"] [sa, sb] = [sa, sb] ∧
    Harmonize.mapValidation ["a", "b"] [sa, sb] = [sa, sb].map Harmonize.validateItem ∧
    (Harmonize.mapValidation ["a", "b"] [sa, sb]).length = 2 := by
  intro sa sb
  have h := C4_mapping_validation ["a", "b"] [sa, sb]
  have hk := h.2.2 (by decide)
  refine ⟨hk, ?_, ?_⟩
  · rw [h.1, hk]
  · rw [h.1, hk]
    decide

/-- The conflict-absorbing insert never reports more insertions than rows
attempted. -/
theorem insertLoop_count_le (payload : List DbUtil.MRow) :
    ∀ store : List DbUtil.MRow, (DbUtil.insertLoop store payload).2 ≤ payload.length := by
  induction payload with
  | nil => intro store; simp [DbUtil.insertLoop]
  | cons r rest ih =>
    intro store
    simp only [DbUtil.insertLoop]
    by_cases hc : store.any (fun e => DbUtil.keyConflict e r) = true
    · rw [if_pos hc]
      exact Nat.le_succ_of_le (ih store)
    · rw [if_neg hc]
      exact Nat.succ_le_succ (ih (store ++ [r]))

/-- Rows already in the measurements table survive the batch insert. -/
theorem insertLoop_mem (payload : List DbUtil.MRow) :
    ∀ (store : List DbUtil.MRow) (x : DbUtil.MRow), x ∈ store →
      x ∈ (DbUtil.insertLoop store payload).1 := by
  induction payload with
  | nil => intro store x hx; exact hx
  | cons r rest ih =>
    intro store x hx
    simp only [DbUtil.insertLoop]
    by_cases hc : store.any (fun e => DbUtil.keyConflict e r) = true
    · rw [if_pos hc]
      exact ih store x hx
    · rw [if_neg hc]
      exact ih (store ++ [r]) x (List.mem_append_left _ hx)

/-- After the batch insert, every self-conflicting attempted row has a
conflicting row present in the resulting table (either a pre-existing one
or the copy just inserted). -/
theorem insertLoop_covers (payload : List DbUtil.MRow) :
    ∀ store : List DbUtil.MRow,
      (∀ m ∈ payload, DbUtil.keyConflict m m = true) →
      ∀ m ∈ payload, ∃ e ∈ (DbUtil.insertLoop store payload).1, DbUtil.keyConflict e m = true := by
  induction payload with
  | nil => intro store _ m hm; cases hm
  | cons r rest ih =>
    intro store hself m hm
    simp only [DbUtil.insertLoop]
    by_cases hc : store.any (fun e => DbUtil.keyConflict e r) = true
    · rw [if_pos hc]
      rcases List.mem_cons.mp hm with rfl | hm2
      · rcases List.any_eq_true.mp hc with ⟨e, he, hce⟩
        exact ⟨e, insertLoop_mem rest store e he, hce⟩
      · exact ih store (fun x hx => hself x (List.mem_cons_of_mem _ hx)) m hm2
    · rw [if_neg hc]
      dsimp only
      rcases List.mem_cons.mp hm with rfl | hm2
      · exact ⟨m, insertLoop_mem rest (store ++ [m]) m (by simp), hself m (List.mem_cons_self _ _)⟩
      · exact ih (store ++ [r]) (fun x hx => hself x (List.mem_cons_of_mem _ hx)) m hm2

/-- A batch each of whose rows conflicts with the current table is wholly
absorbed: nothing is inserted and the table is unchanged. -/
theorem insertLoop_zero (payload : List DbUtil.MRow) :
    ∀ store : List DbUtil.MRow,
      (∀ m ∈ payload, ∃ e ∈ store, DbUtil.keyConflict e m = true) →
      DbUtil.insertLoop store payload = (store, 0) := by
  induction payload with
  | nil => intro store _; rfl
  | cons r rest ih =>
    intro store hcov
    simp only [DbUtil.insertLoop]
    have hc : store.any (fun e => DbUtil.keyConflict e r) = true := by
      rcases hcov r (List.mem_cons_self _ _) with ⟨e, he, hce⟩
      exact List.any_eq_true.mpr ⟨e, he, hce⟩
    rw [if_pos hc]
    exact ih store (fun m hm => hcov m (List.mem_cons_of_mem _ hm))

/-- A measurement row whose nullable key columns are all present conflicts
with its own copy; a NULL in any of them defeats the unique index. -/
theorem keyConflict_self (m : DbUtil.MRow) (h1 : m.sampling_point_id ≠ none)
    (h2 : m.ts ≠ none) (h3 : m.source_column ≠ none) :
    DbUtil.keyConflict m m = true := by
  rcases Option.ne_none_iff_exists.mp h1 with ⟨s, hs⟩
  rcases Option.ne_none_iff_exists.mp h2 with ⟨t, ht⟩
  rcases Option.ne_none_iff_exists.mp h3 with ⟨c, hc⟩
  simp [DbUtil.keyConflict, DbUtil.optKeyEq, ← hs, ← ht, ← hc]

theorem length_filterMap_eq_countP {α β : Type} (f : α → Option β) (l : List α) :
    (l.filterMap f).length = l.countP (fun a => (f a).isSome) := by
  induction l with
  | nil => rfl
  | cons a l ih =>
    cases hf : f a <;> simp [List.filterMap_cons, hf, List.countP_cons, ih]

/-- A long record yields a payload row exactly when its normalized
parameter code has a row in the parameters table. -/
theorem payloadOfRec_isSome (params : List DbUtil.ParamRow) (spMap : List (String × String))
    (dataset_id : String) (df : List DbUtil.LongRec) (r : DbUtil.LongRec) :
    (DbUtil.payloadOfRec params spMap dataset_id df r).isSome =
      (params.find? (fun p => p.code = lowerStr (trimStr r.parameter_code))).isSome := by
  unfold DbUtil.payloadOfRec
  cases hf : params.find? (fun p => p.code = lowerStr (trimStr r.parameter_code)) <;> simp [hf]

/-- rows_in counts exactly the records whose parameter code is known to
the parameters table. -/
theorem payloadOf_length (params : List DbUtil.ParamRow) (spMap : List (String × String))
    (dataset_id : String) (df : List DbUtil.LongRec) :
    (DbUtil.payloadOf params spMap dataset_id df).length =
      df.countP (fun r =>
        (params.find? (fun p => p.code = lowerStr (trimStr r.parameter_code))).isSome) := by
  unfold DbUtil.payloadOf
  rw [length_filterMap_eq_countP]
  congr 1
  funext r
  rw [payloadOfRec_isSome]

/-- insert_measurements on an empty or all-dropped batch is a no-op
returning zero counts. -/
theorem insertMeasurements_empty (params : List DbUtil.ParamRow) (spMap : List (String × String))
    (store : List DbUtil.MRow) (dataset_id : String) (df : List DbUtil.LongRec)
    (h : DbUtil.payloadOf params spMap dataset_id df = []) :
    DbUtil.insertMeasurements params spMap store dataset_id df = ((0, 0, 0), store) := by
  unfold DbUtil.insertMeasurements
  by_cases hdf : df.isEmpty = true
  · rw [if_pos hdf]
  · rw [if_neg hdf]
    dsimp only
    rw [if_pos (by simp [h])]

/-- insert_measurements on a non-empty surviving batch: counts are
(payload length, insert count, difference) and the new table is the
insert-loop result. -/
theorem insertMeasurements_eq (params : List DbUtil.ParamRow) (spMap : List (String × String))
    (store : List DbUtil.MRow) (dataset_id : String) (df : List DbUtil.LongRec)
    (hdf : ¬ df.isEmpty = true)
    (hp : ¬ (DbUtil.payloadOf params spMap dataset_id df).isEmpty = true) :
    DbUtil.insertMeasurements params spMap store dataset_id df =
      (((DbUtil.payloadOf params spMap dataset_id df).length,
        (DbUtil.insertLoop store (DbUtil.payloadOf params spMap dataset_id df)).2,
        (DbUtil.payloadOf params spMap dataset_id df).length -
          (DbUtil.insertLoop store (DbUtil.payloadOf params spMap dataset_id df)).2),
       (DbUtil.insertLoop store (DbUtil.payloadOf params spMap dataset_id df)).1) := by
  unfold DbUtil.insertMeasurements
  rw [if_neg hdf]
  dsimp only
  rw [if_neg hp]

/-- Claim C10.  The result of insert_measurements always satisfies
rows_skipped = rows_in - rows_inserted with rows_inserted ≤ rows_in, and
an empty or all-dropped batch (empty payload) returns all three counts
equal to zero with the measurements table untouched. -/
theorem C10_rows_accounting (params : List DbUtil.ParamRow) (spMap : List (String × String))
    (store : List DbUtil.MRow) (dataset_id : String) (df : List DbUtil.LongRec) :
    ((DbUtil.insertMeasurements params spMap store dataset_id df).1.2.1 ≤
      (DbUtil.insertMeasurements params spMap store dataset_id df).1.1) ∧
    ((DbUtil.insertMeasurements params spMap store dataset_id df).1.2.2 =
      (DbUtil.insertMeasurements params spMap store dataset_id df).1.1 -
        (DbUtil.insertMeasurements params spMap store dataset_id df).1.2.1) ∧
    (DbUtil.payloadOf params spMap dataset_id df = [] →
      DbUtil.insertMeasurements params spMap store dataset_id df = ((0, 0, 0), store)) := by
  refine ⟨?_, ?_, insertMeasurements_empty params spMap store dataset_id df⟩
  all_goals
    by_cases hp : DbUtil.payloadOf params spMap dataset_id df = []
  · rw [insertMeasurements_empty params spMap store dataset_id df hp]
  · have hdf : ¬ df.isEmpty = true := by
      intro h
      rw [List.isEmpty_iff.mp h] at hp
      exact hp rfl
    rw [insertMeasurements_eq params spMap store dataset_id df hdf (by simp [hp])]
    exact insertLoop_count_le _ store
  · rw [insertMeasurements_empty params spMap store dataset_id df hp]
    rfl
  · have hdf : ¬ df.isEmpty = true := by
      intro h
      rw [List.isEmpty_iff.mp h] at hp
      exact hp rfl
    rw [insertMeasurements_eq params spMap store dataset_id df hdf (by simp [hp])]

/-- Witness for C10: a batch whose only record carries an unknown
parameter code is all-dropped — the call returns (0, 0, 0) and the
existing measurements table (here one row m0) is untouched; the bound and
identity hold there too. -/
theorem C10_rows_accounting_witness :
    let m0 : DbUtil.MRow :=
      { dataset_id := "d", sampling_point_id := none, parameter_id := 1,
        ts := none, value := none, unit := none, value_qualifier := none,
        source_column := some "c", quality_flag_id := 2 }
    let rfoo : DbUtil.LongRec :=
      { ts := none, sampling_point := none, parameter_code := "foo",
        unit := none, value := none, source_column := some "c" }
    DbUtil.insertMeasurements [] [] [m0] "d" [rfoo] = ((0, 0, 0), [m0]) ∧
    (DbUtil.insertMeasurements [] [] [m0] "d" [rfoo]).1.2.1 ≤
      (DbUtil.insertMeasurements [] [] [m0] "d" [rfoo]).1.1 := by
  intro m0 rfoo
  have h := C10_rows_accounting [] [] [m0] "d" [rfoo]
  exact ⟨h.2.2 (by decide), h.1⟩

/-- Claim C2 counterexample.  The claim says re-running an identical batch
always yields rows_inserted = 0.  A batch whose record has a NULL
timestamp and no sampling point defeats the natural-key unique index
(NULLs are distinct), so the second run inserts the row again:
rows_inserted = 1. -/
theorem C2_reinsert_counterexample :
    let params : List DbUtil.ParamRow :=
      [{ parameter_id := 1, code := "ph", display_name := "Ph",
         standard_unit := "unitless", allowed_units := ["unitless"],
         category := "chemical" }]
    let rec0 : DbUtil.LongRec :=
      { ts := none, sampling_point := none, parameter_code := "ph",
        unit := none, value := none, source_column := some "col" }
    (DbUtil.insertMeasurements params []
        (DbUtil.insertMeasurements params [] [] "d" [rec0]).2 "d" [rec0]).1.2.1 = 1 ∧
    (1 : Nat) ≠ 0 := by
  constructor
  · decide
  · decide

/-- Claim C2 amended.  Measurement insertion is idempotent on the natural
key for batches whose payload rows carry all nullable key columns
(sampling point, timestamp, source column) non-NULL: re-running
insert_measurements with the same inputs then inserts no new rows — the
second call returns rows_inserted = 0 with rows_in unchanged — because
duplicates on (dataset, sampling_point, parameter, timestamp,
source_column) are absorbed as no-ops, never raised as errors.  Rows with
a NULL key column are exempt: the Postgres unique index treats NULLs as
distinct and re-inserts them. -/
theorem C2_reinsert_idempotent (params : List DbUtil.ParamRow) (spMap : List (String × String))
    (store : List DbUtil.MRow) (dataset_id : String) (df : List DbUtil.LongRec)
    (hkeys : ∀ m ∈ DbUtil.payloadOf params spMap dataset_id df,
      m.sampling_point_id ≠ none ∧ m.ts ≠ none ∧ m.source_column ≠ none) :
    (DbUtil.insertMeasurements params spMap
        (DbUtil.insertMeasurements params spMap store dataset_id df).2 dataset_id df).1.2.1 = 0 ∧
    (DbUtil.insertMeasurements params spMap
        (DbUtil.insertMeasurements params spMap store dataset_id df).2 dataset_id df).1.1 =
      (DbUtil.insertMeasurements params spMap store dataset_id df).1.1 := by
  by_cases hp : DbUtil.payloadOf params spMap dataset_id df = []
  · rw [insertMeasurements_empty params spMap store dataset_id df hp]
    rw [insertMeasurements_empty params spMap store dataset_id df hp]
    exact ⟨rfl, rfl⟩
  · have hdf : ¬ df.isEmpty = true := by
      intro h
      rw [List.isEmpty_iff.mp h] at hp
      exact hp rfl
    have hpe : ¬ (DbUtil.payloadOf params spMap dataset_id df).isEmpty = true := by
      simp [hp]
    have hself : ∀ m ∈ DbUtil.payloadOf params spMap dataset_id df,
        DbUtil.keyConflict m m = true := fun m hm =>
      keyConflict_self m (hkeys m hm).1 (hkeys m hm).2.1 (hkeys m hm).2.2
    have h1 := insertMeasurements_eq params spMap store dataset_id df hdf hpe
    have hcov := insertLoop_covers (DbUtil.payloadOf params spMap dataset_id df) store hself
    have h2 := insertMeasurements_eq params spMap
      (DbUtil.insertLoop store (DbUtil.payloadOf params spMap dataset_id df)).1
      dataset_id df hdf hpe
    rw [h1]
    dsimp only
    rw [h2]
    dsimp only
    rw [insertLoop_zero (DbUtil.payloadOf params spMap dataset_id df)
      (DbUtil.insertLoop store (DbUtil.payloadOf params spMap dataset_id df)).1 hcov]
    exact ⟨rfl, rfl⟩

/-- Witness for the amended C2: a one-record batch with timestamp,
sampling point and source column all present is inserted once and then
absorbed in full on the re-run — the second call inserts nothing and
reports the same rows_in. -/
theorem C2_reinsert_idempotent_witness :
    let params : List DbUtil.ParamRow :=
      [{ parameter_id := 1, code := "ph", display_name := "Ph",
         standard_unit := "unitless", allowed_units := ["unitless"],
         category := "chemical" }]
    let rec0 : DbUtil.LongRec :=
      { ts := some 10, sampling_point := some "P1", parameter_code := "ph",
        unit := none, value := none, source_column := some "col" }
    (DbUtil.insertMeasurements params [("P1", "s1")]
        (DbUtil.insertMeasurements params [("P1", "s1")] [] "d" [rec0]).2 "d" [rec0]).1.2.1 = 0 ∧
    (DbUtil.insertMeasurements params [("P1", "s1")]
        (DbUtil.insertMeasurements params [("P1", "s1")] [] "d" [rec0]).2 "d" [rec0]).1.1 =
      (DbUtil.insertMeasurements params [("P1", "s1")] [] "d" [rec0]).1.1 := by
  intro params rec0
  exact C2_reinsert_idempotent params [("P1", "s1")] [] "d" [rec0] (by decide)

/-- Claim C3 counterexample.  The claim says rows_in counts records
dropped for an unknown parameter code, so they show up in
rows_in - rows_inserted.  In the code the `continue` fires before the
rows_in counter: a two-record batch with one known code ("ph") and one
unknown code ("foo") reports rows_in = 1 (not 2) and
rows_skipped = rows_in - rows_inserted = 0, so the dropped record never
appears in the difference. -/
theorem C3_rows_in_counterexample :
    let params : List DbUtil.ParamRow :=
      [{ parameter_id := 1, code := "ph", display_name := "Ph",
         standard_unit := "unitless", allowed_units := ["unitless"],
         category := "chemical" }]
    let rph : DbUtil.LongRec :=
      { ts := none, sampling_point := none, parameter_code := "ph",
        unit := none, value := none, source_column := some "c1" }
    let rfoo : DbUtil.LongRec :=
      { ts := none, sampling_point := none, parameter_code := "foo",
        unit := none, value := none, source_column := some "c2" }
    (DbUtil.insertMeasurements params [] [] "d" [rph, rfoo]).1.1 = 1 ∧
    ([rph, rfoo] : List DbUtil.LongRec).length = 2 ∧
    (DbUtil.insertMeasurements params [] [] "d" [rph, rfoo]).1.2.2 = 0 := by
  refine ⟨by decide, by decide, by decide⟩

/-- Claim C3 amended.  Records whose parameter code has no row in the
parameters table are dropped silently: no exception is raised (the
function totals and returns counts), the lazy vocabulary upsert creates no
Parameter row for a code missing from STANDARD_UNITS, and the drop is
observable because rows_in counts only the surviving records — the
difference between the batch size and rows_in — while
rows_in - rows_inserted counts only duplicate-key skips. -/
theorem C3_unknown_code_dropped (params : List DbUtil.ParamRow) (spMap : List (String × String))
    (store : List DbUtil.MRow) (dataset_id : String) (df : List DbUtil.LongRec)
    (pstore : List DbUtil.ParamRow) (nextId : Nat) (c : String)
    (hc : DbUtil.STANDARD_UNITS.lookup (lowerStr (trimStr c)) = none) :
    (DbUtil.insertMeasurements params spMap store dataset_id df).1.1 =
      df.countP (fun r =>
        (params.find? (fun p => p.code = lowerStr (trimStr r.parameter_code))).isSome) ∧
    DbUtil.upsertParameterForCode pstore nextId c = pstore := by
  constructor
  · by_cases hp : DbUtil.payloadOf params spMap dataset_id df = []
    · rw [insertMeasurements_empty params spMap store dataset_id df hp]
      rw [← payloadOf_length params spMap dataset_id df, hp]
      rfl
    · have hdf : ¬ df.isEmpty = true := by
        intro h
        rw [List.isEmpty_iff.mp h] at hp
        exact hp rfl
      rw [insertMeasurements_eq params spMap store dataset_id df hdf (by simp [hp])]
      exact payloadOf_length params spMap dataset_id df
  · unfold DbUtil.upsertParameterForCode
    dsimp only
    rw [hc]

/-- Witness for the amended C3 at the two-record batch: rows_in = 1 equals
the count of known-code records, and upserting the unknown code "foo"
leaves the parameters table unchanged. -/
theorem C3_unknown_code_dropped_witness :
    let params : List DbUtil.ParamRow :=
      [{ parameter_id := 1, code := "ph", display_name := "Ph",
         standard_unit := "unitless", allowed_units := ["unitless"],
         category := "chemical" }]
    let rph : DbUtil.LongRec :=
      { ts := none, sampling_point := none, parameter_code := "ph",
        unit := none, value := none, source_column := some "c1" }
    let rfoo : DbUtil.LongRec :=
      { ts := none, sampling_point := none, parameter_code := "foo",
        unit := none, value := none, source_column := some "c2" }
    (DbUtil.insertMeasurements params [] [] "d" [rph, rfoo]).1.1 =
      ([rph, rfoo] : List DbUtil.LongRec).countP (fun r =>
        (params.find? (fun p => p.code = lowerStr (trimStr r.parameter_code))).isSome) ∧
    DbUtil.upsertParameterForCode params 2 "foo" = params := by
  intro params rph rfoo
  exact C3_unknown_code_dropped params [] [] "d" [rph, rfoo] params 2 "foo" (by decide)

end WaterProject
